import Mathlib

/-!
Shallow embedding of `src/svc.orchestrator/registry/health_checker.go`:
the per-registrant health-check loop (`startHealthCheck`), the probe cycle
(`sendHeartBeat`) with its exponential-backoff retry policy, the metrics
translation to the aggregator, and the stop/termination protocol.

Collaborator types (`types.RegistrantInfo`, `clients.HeartbeatResponse`,
`clients.Stats`, `clients.DataPoint`, the `storage.Metric*` constants and
the go-resiliency retrier) live outside `src/`; they are modelled from the
spec at their boundary, as noted on each definition.
-/

namespace HealthChecker

/-- Modelled from the spec: `types.RegistrantInfo` (not under `src/`) —
identity of a monitored service: service name and control address. -/
structure RegistrantInfo where
  ServiceName : String
  ControlAddress : String
deriving DecidableEq, Repr

/-- Modelled from the spec: the numeric value carried by a metric sample
(`DataPoint.Value` and the `Stats` utilization/count fields). -/
abbrev MetricValue := Int

/-- Modelled from the spec: `clients.Stats` (not under `src/`) — one
reporting service's sample at a timestamp: service id, timestamp, CPU
utilization, memory utilization, thread count, goroutine count. -/
structure Stats where
  ServiceID : String
  TS : Nat
  CPU : MetricValue
  Mem : MetricValue
  Threads : MetricValue
  NumGoroutines : MetricValue
deriving DecidableEq, Repr

/-- Modelled from the spec: `clients.HeartbeatResponse` (not under `src/`)
— an ordered sequence of per-service stats, zero or more. -/
structure HeartbeatResponse where
  Stats : List Stats
deriving DecidableEq, Repr

/-- Modelled from the spec: the `storage.Metric*` identifiers (not under
`src/`) — the four metric kinds a stats entry is translated into. -/
inductive MetricID where
  | MetricCPU
  | MetricMemory
  | MetricThreads
  | MetricNumGoroutine
deriving DecidableEq, Repr

/-- Modelled from the spec: `clients.DataPoint` (not under `src/`) — a
single metric observation for the aggregator: metric kind, service id,
timestamp, numeric value. -/
structure DataPoint where
  MetricID : MetricID
  ServiceID : String
  TS : Nat
  Value : MetricValue
deriving DecidableEq, Repr

/-- Errors observable in the embedding: an RPC error returned by one
heartbeat attempt (`clients.HeartbeatClient.Heartbeat`), or the error
`sendHeartBeat` itself builds at `health_checker.go:95` when the retrier
reports success but the response is nil. -/
inductive GoError where
  | rpcError (msg : String)
  | nilResponseError (info : RegistrantInfo)
deriving DecidableEq, Repr

/-- Outcome of one heartbeat attempt: `resp, err = r.client.Heartbeat(...)`.
An error case carries the error; a success case carries the response
pointer, which may still be nil (`none`). -/
abbrev AttemptOutcome := Except GoError (Option HeartbeatResponse)

/-- Behaviour of the heartbeat client during one probe cycle: the outcome
the client would return on the k-th attempt (0-indexed). -/
abbrev ClientBehavior := Nat → AttemptOutcome

/-- Result of running the retry policy: the final result handed back to
`sendHeartBeat`, the number of attempts performed, and the backoff delays
slept between attempts (in milliseconds). -/
structure RetryOutcome where
  result : AttemptOutcome
  attemptsUsed : Nat
  delays : List Nat
deriving Repr

/-- Modelled from the spec: the backoff delay slept after the i-th failed
attempt — starting delay 500ms, each subsequent delay growing
exponentially (`retrier.ExponentialBackoff(4, 500*time.Millisecond)`). -/
def backoffDelayMs (i : Nat) : Nat := 500 * 2 ^ i

/-- Modelled from the spec: the go-resiliency retrier (not under `src/`).
`retrierRunFrom client i n` performs attempt `i` and, on error, up to `n`
further attempts: it returns the first successful result, or the last
observed error when every attempt fails, sleeping `backoffDelayMs` after
each failed non-final attempt. -/
def retrierRunFrom (client : ClientBehavior) : Nat → Nat → RetryOutcome
  | i, 0 => { result := client i, attemptsUsed := 1, delays := [] }
  | i, n + 1 =>
    match client i with
    | .ok r => { result := .ok r, attemptsUsed := 1, delays := [] }
    | .error _ =>
      let rest := retrierRunFrom client (i + 1) n
      { result := rest.result
        attemptsUsed := rest.attemptsUsed + 1
        delays := backoffDelayMs i :: rest.delays }

/-- Modelled from the spec: the retry policy as configured at
`health_checker.go:79` — up to 4 attempts, starting delay 500ms. -/
def expRetrierRun (client : ClientBehavior) : RetryOutcome :=
  retrierRunFrom client 0 3

/-- Translation of the aggregator loop of `sendHeartBeat`
(`health_checker.go:98-123`): for each stats entry, in response order,
append the four data points CPU, Memory, Threads, NumGoroutine, each
carrying the entry's service id and timestamp. -/
def addAllDataPoints : List Stats → List DataPoint
  | [] => []
  | s :: rest =>
    ⟨.MetricCPU, s.ServiceID, s.TS, s.CPU⟩ ::
    ⟨.MetricMemory, s.ServiceID, s.TS, s.Mem⟩ ::
    ⟨.MetricThreads, s.ServiceID, s.TS, s.Threads⟩ ::
    ⟨.MetricNumGoroutine, s.ServiceID, s.TS, s.NumGoroutines⟩ ::
    addAllDataPoints rest

/-- What one `sendHeartBeat` invocation did: the error it returned (`none`
for a nil Go error) and the `AddDataPoint` calls it made on the
aggregator, in order. -/
structure HeartbeatResult where
  err : Option GoError
  added : List DataPoint
deriving Repr

/-- Translation of `sendHeartBeat` (`health_checker.go:76-128`): run the
heartbeat call under the exponential retrier; if the retrier returns an
error, return it (no aggregator calls); if it succeeds but the response is
nil, return the "hearteat failed" error (no aggregator calls); otherwise
append four data points per stats entry and return nil. -/
def sendHeartBeat (info : RegistrantInfo) (client : ClientBehavior) :
    HeartbeatResult :=
  match (expRetrierRun client).result with
  | .error e => { err := some e, added := [] }
  | .ok none => { err := some (.nilResponseError info), added := [] }
  | .ok (some resp) => { err := none, added := addAllDataPoints resp.Stats }

/-- External events the loop's `select` can observe, in arrival order: a
value on the quit channel (a `stopHealthCheck` call) or a ticker tick,
the latter carrying the client's behaviour during that probe cycle. -/
inductive LoopEvent where
  | quit
  | tick (client : ClientBehavior)

/-- Observable trace of one `startHealthCheck` run: number of
`sendHeartBeat` invocations, aggregator appends in order, termination
reports sent on the shared `done` channel, receives performed on the
`quit` channel, and whether the goroutine returned (running its deferred
block) or is still blocked waiting for an event. -/
structure LoopTrace where
  probeCount : Nat
  dataPoints : List DataPoint
  reports : List RegistrantInfo
  quitReceives : Nat
  finished : Bool
deriving Repr

/-- Trace of a run that returned: the deferred block
(`health_checker.go:43-49`) stops the ticker and sends exactly one
`r.info` on the shared `done` channel. -/
def finishTrace (info : RegistrantInfo) : LoopTrace :=
  { probeCount := 0, dataPoints := [], reports := [info],
    quitReceives := 0, finished := true }

/-- Translation of the loop of `startHealthCheck`
(`health_checker.go:53-70`), driven by the finite list of events that
arrive: while `retries > 0`, select the next event; a quit receive
returns; a tick runs `sendHeartBeat` — on error, decrement retries and
return immediately (the early return at line 64); on success, reset
retries to `maxRetries`. When the event list is exhausted the loop is
still blocked in `select` (`finished := false`). -/
def startHealthCheckGo (maxRetries : Nat) (info : RegistrantInfo) :
    Nat → List LoopEvent → LoopTrace
  | retries, events =>
    if retries = 0 then finishTrace info
    else
      match events with
      | [] =>
        { probeCount := 0, dataPoints := [], reports := [],
          quitReceives := 0, finished := false }
      | .quit :: _ =>
        { finishTrace info with quitReceives := 1 }
      | .tick client :: rest =>
        let hb := sendHeartBeat info client
        match hb.err with
        | some _ =>
          { finishTrace info with probeCount := 1 }
        | none =>
          let t := startHealthCheckGo maxRetries info maxRetries rest
          { t with
              probeCount := t.probeCount + 1
              dataPoints := hb.added ++ t.dataPoints }

/-- Translation of `startHealthCheck` (`health_checker.go:40-70`): the
loop starts with the full budget `maxHeartBeatRetries` (a package-level
constant not under `src/`; kept as the parameter `maxRetries`). -/
def startHealthCheck (maxRetries : Nat) (info : RegistrantInfo)
    (events : List LoopEvent) : LoopTrace :=
  startHealthCheckGo maxRetries info maxRetries events

/-- Translation of `stopHealthCheck` (`health_checker.go:72-74`) at the
boundary of this embedding: the single stop call is the one `quit` event
in the run's event list, sent on the unbuffered `quit` channel; the call
completes exactly when the loop performs the matching receive, and blocks
forever otherwise. -/
def stopCompletes (maxRetries : Nat) (info : RegistrantInfo)
    (events : List LoopEvent) : Bool :=
  0 < (startHealthCheck maxRetries info events).quitReceives

/-- Modelled from the spec: the corrected loop semantics of §4.1 — on a
failed probe cycle, decrement the remaining-retry counter and keep
looping; terminate only when the counter reaches zero; a success resets
the counter to the full budget. Used to exhibit the divergence of the
source loop from the specified behaviour. -/
def specHealthCheckGo (maxRetries : Nat) (info : RegistrantInfo) :
    Nat → List LoopEvent → LoopTrace
  | retries, events =>
    if retries = 0 then finishTrace info
    else
      match events with
      | [] =>
        { probeCount := 0, dataPoints := [], reports := [],
          quitReceives := 0, finished := false }
      | .quit :: _ =>
        { finishTrace info with quitReceives := 1 }
      | .tick client :: rest =>
        let hb := sendHeartBeat info client
        match hb.err with
        | some _ =>
          let t := specHealthCheckGo maxRetries info (retries - 1) rest
          { t with probeCount := t.probeCount + 1 }
        | none =>
          let t := specHealthCheckGo maxRetries info maxRetries rest
          { t with
              probeCount := t.probeCount + 1
              dataPoints := hb.added ++ t.dataPoints }

/-- Spec-modelled corrected loop, started with the full budget. -/
def specHealthCheck (maxRetries : Nat) (info : RegistrantInfo)
    (events : List LoopEvent) : LoopTrace :=
  specHealthCheckGo maxRetries info maxRetries events

/-! ### Helper lemmas about the retry policy -/

lemma retrierRunFrom_attempts_pos (client : ClientBehavior) :
    ∀ (n i : Nat), 1 ≤ (retrierRunFrom client i n).attemptsUsed := by
  intro n
  induction n with
  | zero => intro i; simp [retrierRunFrom]
  | succ n ih =>
    intro i
    cases h : client i with
    | ok r => simp [retrierRunFrom, h]
    | error e => simp [retrierRunFrom, h]

lemma retrierRunFrom_attempts_le (client : ClientBehavior) :
    ∀ (n i : Nat), (retrierRunFrom client i n).attemptsUsed ≤ n + 1 := by
  intro n
  induction n with
  | zero => intro i; simp [retrierRunFrom]
  | succ n ih =>
    intro i
    cases h : client i with
    | ok r => simp [retrierRunFrom, h]
    | error e =>
      simp only [retrierRunFrom, h]
      have := ih (i + 1)
      omega

lemma retrierRunFrom_first_ok (client : ClientBehavior)
    (r : Option HeartbeatResponse) :
    ∀ (k i n : Nat), k ≤ n →
      (∀ j, j < k → ∃ e, client (i + j) = .error e) →
      client (i + k) = .ok r →
      (retrierRunFrom client i n).result = .ok r ∧
      (retrierRunFrom client i n).attemptsUsed = k + 1 := by
  intro k
  induction k with
  | zero =>
    intro i n _ _ hok
    rw [Nat.add_zero] at hok
    cases n with
    | zero => simp [retrierRunFrom, hok]
    | succ n => simp [retrierRunFrom, hok]
  | succ k ih =>
    intro i n hkn hfail hok
    obtain ⟨e, he⟩ := hfail 0 (Nat.succ_pos k)
    rw [Nat.add_zero] at he
    cases n with
    | zero => omega
    | succ n =>
      simp only [retrierRunFrom, he]
      have h2 : ∀ j, j < k → ∃ e2, client (i + 1 + j) = .error e2 := by
        intro j hj
        have := hfail (j + 1) (by omega)
        rwa [show i + (j + 1) = i + 1 + j by omega] at this
      have h3 : client (i + 1 + k) = .ok r := by
        rwa [show i + 1 + k = i + (k + 1) by omega]
      have := ih (i + 1) n (by omega) h2 h3
      simp [this.1, this.2]

lemma retrierRunFrom_all_fail (client : ClientBehavior) :
    ∀ (n i : Nat), (∀ j, j ≤ n → ∃ e, client (i + j) = .error e) →
      (retrierRunFrom client i n).result = client (i + n) ∧
      (retrierRunFrom client i n).attemptsUsed = n + 1 := by
  intro n
  induction n with
  | zero => intro i _; simp [retrierRunFrom]
  | succ n ih =>
    intro i h
    obtain ⟨e, he⟩ := h 0 (Nat.zero_le _)
    rw [Nat.add_zero] at he
    simp only [retrierRunFrom, he]
    have h2 : ∀ j, j ≤ n → ∃ e2, client (i + 1 + j) = .error e2 := by
      intro j hj
      have := h (j + 1) (by omega)
      rwa [show i + (j + 1) = i + 1 + j by omega] at this
    have := ih (i + 1) h2
    refine ⟨?_, by simp [this.2]⟩
    rw [this.1]
    congr 1
    omega

lemma retrierRunFrom_delays_spec (client : ClientBehavior) :
    ∀ (n i : Nat),
      (retrierRunFrom client i n).delays =
        (List.range' i ((retrierRunFrom client i n).attemptsUsed - 1)).map
          backoffDelayMs := by
  intro n
  induction n with
  | zero => intro i; simp [retrierRunFrom]
  | succ n ih =>
    intro i
    cases h : client i with
    | ok r => simp [retrierRunFrom, h]
    | error e =>
      simp only [retrierRunFrom, h]
      have hpos := retrierRunFrom_attempts_pos client n (i + 1)
      obtain ⟨m, hm⟩ : ∃ m, (retrierRunFrom client (i + 1) n).attemptsUsed
          = m + 1 := ⟨_, (Nat.succ_pred_eq_of_pos hpos).symm⟩
      rw [ih (i + 1), hm]
      simp [List.range'_succ]

/-! ### Helper lemmas about the health-check loop -/

lemma startHealthCheckGo_retries_zero (m : Nat) (info : RegistrantInfo)
    (events : List LoopEvent) :
    startHealthCheckGo m info 0 events = finishTrace info := by
  rw [startHealthCheckGo.eq_def]
  simp

lemma startHealthCheckGo_nil (m : Nat) (info : RegistrantInfo)
    (retries : Nat) (h : retries ≠ 0) :
    startHealthCheckGo m info retries [] =
      { probeCount := 0, dataPoints := [], reports := [],
        quitReceives := 0, finished := false } := by
  rw [startHealthCheckGo.eq_def]
  simp [h]

lemma startHealthCheckGo_quit (m : Nat) (info : RegistrantInfo)
    (retries : Nat) (rest : List LoopEvent) (h : retries ≠ 0) :
    startHealthCheckGo m info retries (.quit :: rest) =
      { finishTrace info with quitReceives := 1 } := by
  rw [startHealthCheckGo.eq_def]
  simp [h]

lemma startHealthCheckGo_tick_err (m : Nat) (info : RegistrantInfo)
    (retries : Nat) (client : ClientBehavior) (rest : List LoopEvent)
    (e : GoError) (h : retries ≠ 0)
    (he : (sendHeartBeat info client).err = some e) :
    startHealthCheckGo m info retries (.tick client :: rest) =
      { finishTrace info with probeCount := 1 } := by
  rw [startHealthCheckGo.eq_def]
  simp [h, he]

lemma startHealthCheckGo_tick_ok (m : Nat) (info : RegistrantInfo)
    (retries : Nat) (client : ClientBehavior) (rest : List LoopEvent)
    (h : retries ≠ 0) (he : (sendHeartBeat info client).err = none) :
    startHealthCheckGo m info retries (.tick client :: rest) =
      { startHealthCheckGo m info m rest with
          probeCount := (startHealthCheckGo m info m rest).probeCount + 1
          dataPoints := (sendHeartBeat info client).added ++
            (startHealthCheckGo m info m rest).dataPoints } := by
  rw [startHealthCheckGo.eq_def]
  simp [h, he]

/-! ### Metrics translation, grouped per stats entry -/

/-- Per-entry view of the aggregator loop: the four data points the loop
appends for one stats entry, in source order (CPU, Memory, Threads,
NumGoroutine). -/
def statsEntryPoints (s : Stats) : List DataPoint :=
  [⟨.MetricCPU, s.ServiceID, s.TS, s.CPU⟩,
   ⟨.MetricMemory, s.ServiceID, s.TS, s.Mem⟩,
   ⟨.MetricThreads, s.ServiceID, s.TS, s.Threads⟩,
   ⟨.MetricNumGoroutine, s.ServiceID, s.TS, s.NumGoroutines⟩]

lemma addAllDataPoints_eq_flatMap (l : List Stats) :
    addAllDataPoints l = l.flatMap statsEntryPoints := by
  induction l with
  | nil => rfl
  | cons s rest ih => simp [addAllDataPoints, statsEntryPoints, ih]

/-! ### Concrete example inputs used by witnesses and counterexamples -/

/-- Client behaviour whose every attempt fails with an RPC error. -/
def failingClient : ClientBehavior := fun _ => .error (.rpcError "connection refused")

/-- Client behaviour failing the first two attempts, then succeeding with
an empty response. -/
def blipClient : ClientBehavior := fun k =>
  if k < 2 then .error (.rpcError "timeout") else .ok (some ⟨[]⟩)

/-- Concrete stats entry (spec §8 scenario, integer-valued). -/
def statsA : Stats := ⟨"svc-a", 100, 5, 2, 4, 10⟩

/-- Second concrete stats entry. -/
def statsB : Stats := ⟨"svc-b", 200, 7, 3, 8, 20⟩

/-- Client behaviour succeeding at once with one stats entry. -/
def okOneClient : ClientBehavior := fun _ => .ok (some ⟨[statsA]⟩)

/-- Client behaviour succeeding at once with two stats entries. -/
def okTwoClient : ClientBehavior := fun _ => .ok (some ⟨[statsA, statsB]⟩)

/-- Client behaviour succeeding at once with a zero-entry response. -/
def okEmptyClient : ClientBehavior := fun _ => .ok (some ⟨[]⟩)

/-! ### Claim theorems about the retry policy and the probe cycle -/

/-- Claim C8: the retry policy wrapping the heartbeat call performs at
most 4 attempts with exponential backoff starting at 500ms (each delay
doubling), returns success on the first attempt that succeeds, and
returns the last observed error when all 4 attempts fail. -/
theorem retryPolicy_four_attempts_expBackoff (client : ClientBehavior) :
    (expRetrierRun client).attemptsUsed ≤ 4 ∧
    backoffDelayMs 0 = 500 ∧
    (∀ i, backoffDelayMs (i + 1) = 2 * backoffDelayMs i) ∧
    (expRetrierRun client).delays =
      (List.range' 0 ((expRetrierRun client).attemptsUsed - 1)).map
        backoffDelayMs ∧
    (∀ k r, k < 4 → (∀ j, j < k → ∃ e, client j = .error e) →
      client k = .ok r →
      (expRetrierRun client).result = .ok r ∧
      (expRetrierRun client).attemptsUsed = k + 1) ∧
    ((∀ j, j < 4 → ∃ e, client j = .error e) →
      ∃ e, client 3 = .error e ∧ (expRetrierRun client).result = .error e ∧
        (expRetrierRun client).attemptsUsed = 4) := by
  refine ⟨retrierRunFrom_attempts_le client 3 0, rfl,
    fun i => by simp [backoffDelayMs, Nat.pow_succ]; ring,
    retrierRunFrom_delays_spec client 3 0, ?_, ?_⟩
  · intro k r hk hfail hok
    exact retrierRunFrom_first_ok client r k 0 3 (by omega)
      (fun j hj => by simpa using hfail j hj) (by simpa using hok)
  · intro hfail
    obtain ⟨e, he⟩ := hfail 3 (by omega)
    have hall := retrierRunFrom_all_fail client 3 0
      (fun j hj => by simpa using hfail j (by omega))
    refine ⟨e, he, ?_, hall.2⟩
    rw [expRetrierRun, hall.1]
    simpa using he

/-- Witness for C8: a client failing its first two attempts and
succeeding on the third makes the policy stop after 3 attempts with that
success. -/
theorem retryPolicy_four_attempts_expBackoff_witness :
    (expRetrierRun blipClient).result = .ok (some ⟨[]⟩) ∧
    (expRetrierRun blipClient).attemptsUsed = 3 := by
  refine (retryPolicy_four_attempts_expBackoff blipClient).2.2.2.2.1 2
    (some ⟨[]⟩) (by decide) ?_ rfl
  intro j hj
  interval_cases j <;> exact ⟨.rpcError "timeout", rfl⟩

/-- Claim C3: `sendHeartBeat` returns an error if and only if the retry
policy exhausts its 4 attempts (propagating the last observed error) or
reports success with a nil response; a non-nil success yields no error.
The three cases below are exhaustive over client behaviours. -/
theorem sendHeartBeat_error_conditions (info : RegistrantInfo)
    (client : ClientBehavior) :
    ((∀ j, j < 4 → ∃ e, client j = .error e) →
      ∃ e, client 3 = .error e ∧ (sendHeartBeat info client).err = some e) ∧
    (∀ k, k < 4 → (∀ j, j < k → ∃ e, client j = .error e) →
      client k = .ok none →
      (sendHeartBeat info client).err = some (.nilResponseError info)) ∧
    (∀ k resp, k < 4 → (∀ j, j < k → ∃ e, client j = .error e) →
      client k = .ok (some resp) →
      (sendHeartBeat info client).err = none) := by
  refine ⟨?_, ?_, ?_⟩
  · intro hfail
    obtain ⟨e, he⟩ := hfail 3 (by omega)
    have hall := retrierRunFrom_all_fail client 3 0
      (fun j hj => by simpa using hfail j (by omega))
    have hres : (expRetrierRun client).result = .error e := by
      rw [expRetrierRun, hall.1]
      simpa using he
    exact ⟨e, he, by simp [sendHeartBeat, hres]⟩
  · intro k hk hfail hok
    have h := retrierRunFrom_first_ok client none k 0 3 (by omega)
      (fun j hj => by simpa using hfail j hj) (by simpa using hok)
    have hres : (expRetrierRun client).result = .ok none := h.1
    simp [sendHeartBeat, hres]
  · intro k resp hk hfail hok
    have h := retrierRunFrom_first_ok client (some resp) k 0 3 (by omega)
      (fun j hj => by simpa using hfail j hj) (by simpa using hok)
    have hres : (expRetrierRun client).result = .ok (some resp) := h.1
    simp [sendHeartBeat, hres]

/-- Witness for C3: with every attempt failing, the probe cycle returns
the last observed error. -/
theorem sendHeartBeat_error_conditions_witness :
    ∃ e, failingClient 3 = .error e ∧
      (sendHeartBeat ⟨"svc-c", "addr-c"⟩ failingClient).err = some e :=
  (sendHeartBeat_error_conditions ⟨"svc-c", "addr-c"⟩ failingClient).1
    (fun _ _ => ⟨.rpcError "connection refused", rfl⟩)

/-- Claim C9: a `sendHeartBeat` invocation that returns an error makes no
`AddDataPoint` call on the aggregator. -/
theorem failed_probe_leaves_aggregator_unchanged (info : RegistrantInfo)
    (client : ClientBehavior)
    (h : (sendHeartBeat info client).err.isSome = true) :
    (sendHeartBeat info client).added = [] := by
  unfold sendHeartBeat at h ⊢
  cases hres : (expRetrierRun client).result with
  | error e => simp [hres]
  | ok r =>
    cases r with
    | none => simp [hres]
    | some resp => rw [hres] at h; simp at h

/-- Witness for C9: the all-failing client returns an error and appends
nothing. -/
theorem failed_probe_leaves_aggregator_unchanged_witness :
    (sendHeartBeat ⟨"svc-b", "addr-b"⟩ failingClient).added = [] :=
  failed_probe_leaves_aggregator_unchanged ⟨"svc-b", "addr-b"⟩ failingClient
    (by decide)

/-- Claim C2: on a successful probe cycle, each stats entry of the
response yields exactly four data points — one per metric kind — all four
carrying the entry's service id and timestamp, with values mapped from
the entry's CPU, memory, thread-count and goroutine-count fields. -/
theorem stats_entry_four_datapoints (info : RegistrantInfo)
    (client : ClientBehavior) (resp : HeartbeatResponse)
    (h : (expRetrierRun client).result = .ok (some resp)) :
    (sendHeartBeat info client).err = none ∧
    (sendHeartBeat info client).added = resp.Stats.flatMap statsEntryPoints ∧
    ∀ s : Stats,
      (statsEntryPoints s).length = 4 ∧
      (∀ p ∈ statsEntryPoints s, p.ServiceID = s.ServiceID ∧ p.TS = s.TS) ∧
      (statsEntryPoints s).map DataPoint.MetricID =
        [.MetricCPU, .MetricMemory, .MetricThreads, .MetricNumGoroutine] ∧
      (statsEntryPoints s).map DataPoint.Value =
        [s.CPU, s.Mem, s.Threads, s.NumGoroutines] := by
  refine ⟨by simp [sendHeartBeat, h],
    by simp [sendHeartBeat, h, addAllDataPoints_eq_flatMap], ?_⟩
  intro s
  refine ⟨rfl, ?_, rfl, rfl⟩
  intro p hp
  simp [statsEntryPoints] at hp
  rcases hp with h1 | h1 | h1 | h1 <;> subst h1 <;> exact ⟨rfl, rfl⟩

/-- Witness for C2: one stats entry yields exactly its four points. -/
theorem stats_entry_four_datapoints_witness :
    (sendHeartBeat ⟨"svc-a", "addr-a"⟩ okOneClient).added =
      [statsA].flatMap statsEntryPoints :=
  (stats_entry_four_datapoints ⟨"svc-a", "addr-a"⟩ okOneClient ⟨[statsA]⟩
    rfl).2.1

/-- Claim C10: on a successful probe cycle the aggregator appends are a
deterministic function of the response — stats entries are processed in
response order, and each entry contributes its four points in the fixed
order CPU, Memory, Threads, NumGoroutine. -/
theorem datapoints_order_per_response (info : RegistrantInfo)
    (client : ClientBehavior) (resp : HeartbeatResponse)
    (h : (expRetrierRun client).result = .ok (some resp)) :
    (sendHeartBeat info client).added =
      resp.Stats.flatMap (fun s =>
        [⟨.MetricCPU, s.ServiceID, s.TS, s.CPU⟩,
         ⟨.MetricMemory, s.ServiceID, s.TS, s.Mem⟩,
         ⟨.MetricThreads, s.ServiceID, s.TS, s.Threads⟩,
         ⟨.MetricNumGoroutine, s.ServiceID, s.TS, s.NumGoroutines⟩]) := by
  simp only [sendHeartBeat, h, addAllDataPoints_eq_flatMap]
  rfl

/-- Witness for C10: two stats entries produce the eight points in
response order, four per entry. -/
theorem datapoints_order_per_response_witness :
    (sendHeartBeat ⟨"svc-d", "addr-d"⟩ okTwoClient).added =
      [statsA, statsB].flatMap (fun s =>
        [⟨.MetricCPU, s.ServiceID, s.TS, s.CPU⟩,
         ⟨.MetricMemory, s.ServiceID, s.TS, s.Mem⟩,
         ⟨.MetricThreads, s.ServiceID, s.TS, s.Threads⟩,
         ⟨.MetricNumGoroutine, s.ServiceID, s.TS, s.NumGoroutines⟩]) :=
  datapoints_order_per_response ⟨"svc-d", "addr-d"⟩ okTwoClient
    ⟨[statsA, statsB]⟩ rfl

/-! ### Claim theorems about the loop and the termination protocol -/

lemma startHealthCheckGo_reports (m : Nat) (info : RegistrantInfo) :
    ∀ (events : List LoopEvent) (retries : Nat),
      (startHealthCheckGo m info retries events).reports =
        (if (startHealthCheckGo m info retries events).finished
          then [info] else []) := by
  intro events
  induction events with
  | nil =>
    intro retries
    rcases Nat.eq_zero_or_pos retries with h | h
    · subst h
      rw [startHealthCheckGo_retries_zero]
      simp [finishTrace]
    · rw [startHealthCheckGo_nil m info retries (by omega)]
      simp
  | cons e rest ih =>
    intro retries
    rcases Nat.eq_zero_or_pos retries with h | h
    · subst h
      rw [startHealthCheckGo_retries_zero]
      simp [finishTrace]
    · cases e with
      | quit =>
        rw [startHealthCheckGo_quit m info retries rest (by omega)]
        simp [finishTrace]
      | tick client =>
        cases he : (sendHeartBeat info client).err with
        | some err =>
          rw [startHealthCheckGo_tick_err m info retries client rest err
            (by omega) he]
          simp [finishTrace]
        | none =>
          rw [startHealthCheckGo_tick_ok m info retries client rest
            (by omega) he]
          simpa using ih m

/-- Claim C4: over a Health Checker run, the shared report channel
receives the registrant identity exactly once when the goroutine has
terminated — whichever of the quit signal or a probe outcome triggered
the exit — and receives nothing while the loop is still running: never
zero reports after termination, never two. -/
theorem healthChecker_exactly_one_report (maxRetries : Nat)
    (info : RegistrantInfo) (events : List LoopEvent) :
    (startHealthCheck maxRetries info events).reports =
      (if (startHealthCheck maxRetries info events).finished
        then [info] else []) :=
  startHealthCheckGo_reports maxRetries info events maxRetries

/-- Claim C7: a stop signal arriving before any tick terminates the loop
with zero `sendHeartBeat` invocations (hence no heartbeat-client call)
and the single termination report. -/
theorem stop_before_first_tick (maxRetries : Nat) (info : RegistrantInfo)
    (rest : List LoopEvent) (h : 0 < maxRetries) :
    startHealthCheck maxRetries info (.quit :: rest) =
      { probeCount := 0, dataPoints := [], reports := [info],
        quitReceives := 1, finished := true } := by
  unfold startHealthCheck
  rw [startHealthCheckGo_quit maxRetries info maxRetries rest (by omega)]
  rfl

/-- Witness for C7: with budget 3, a quit as the first event produces the
report and no probe. -/
theorem stop_before_first_tick_witness :
    startHealthCheck 3 ⟨"svc-a", "addr-a"⟩ [.quit] =
      { probeCount := 0, dataPoints := [], reports := [⟨"svc-a", "addr-a"⟩],
        quitReceives := 1, finished := true } :=
  stop_before_first_tick 3 ⟨"svc-a", "addr-a"⟩ [] (by decide)

/-- Claim C6: a probe cycle whose response is non-nil with zero stats
entries counts as a success — `sendHeartBeat` returns no error and
appends nothing — and the loop continues with the retry counter reset to
the full budget. -/
theorem empty_stats_success (maxRetries retries : Nat)
    (info : RegistrantInfo) (client : ClientBehavior)
    (resp : HeartbeatResponse) (rest : List LoopEvent)
    (h1 : (expRetrierRun client).result = .ok (some resp))
    (h2 : resp.Stats = []) (h3 : 0 < retries) :
    (sendHeartBeat info client).err = none ∧
    (sendHeartBeat info client).added = [] ∧
    startHealthCheckGo maxRetries info retries (.tick client :: rest) =
      { startHealthCheckGo maxRetries info maxRetries rest with
          probeCount :=
            (startHealthCheckGo maxRetries info maxRetries rest).probeCount
              + 1 } := by
  have he : (sendHeartBeat info client).err = none := by
    simp [sendHeartBeat, h1]
  have ha : (sendHeartBeat info client).added = [] := by
    simp [sendHeartBeat, h1, h2, addAllDataPoints]
  refine ⟨he, ha, ?_⟩
  rw [startHealthCheckGo_tick_ok maxRetries info retries client rest
    (by omega) he, ha]
  simp

/-- Witness for C6: a zero-entry success as the only event leaves the
loop running with a full budget, one probe performed, nothing added. -/
theorem empty_stats_success_witness :
    (sendHeartBeat ⟨"svc-e", "addr-e"⟩ okEmptyClient).err = none ∧
    (sendHeartBeat ⟨"svc-e", "addr-e"⟩ okEmptyClient).added = [] ∧
    startHealthCheckGo 3 ⟨"svc-e", "addr-e"⟩ 3 [.tick okEmptyClient] =
      { startHealthCheckGo 3 ⟨"svc-e", "addr-e"⟩ 3 [] with
          probeCount :=
            (startHealthCheckGo 3 ⟨"svc-e", "addr-e"⟩ 3 []).probeCount + 1 } :=
  empty_stats_success 3 3 ⟨"svc-e", "addr-e"⟩ okEmptyClient ⟨[]⟩ [] rfl rfl
    (by decide)

lemma startHealthCheckGo_pre_quit (m : Nat) (info : RegistrantInfo) :
    ∀ (pre rest : List LoopEvent), m ≠ 0 →
      (∀ e ∈ pre, ∃ client, e = .tick client ∧
        (sendHeartBeat info client).err = none) →
      (startHealthCheckGo m info m (pre ++ .quit :: rest)).finished = true ∧
      (startHealthCheckGo m info m (pre ++ .quit :: rest)).quitReceives = 1 ∧
      (startHealthCheckGo m info m (pre ++ .quit :: rest)).probeCount
        = pre.length := by
  intro pre
  induction pre with
  | nil =>
    intro rest hm _
    rw [List.nil_append, startHealthCheckGo_quit m info m rest hm]
    simp [finishTrace]
  | cons e pre ih =>
    intro rest hm hsucc
    obtain ⟨client, rfl, he⟩ := hsucc e (List.mem_cons_self e pre)
    rw [List.cons_append, startHealthCheckGo_tick_ok m info m client
      (pre ++ .quit :: rest) hm he]
    have h := ih rest hm (fun x hx => hsucc x (List.mem_cons_of_mem _ hx))
    simp [h.1, h.2.1, h.2.2, List.length_cons]

/-- Claim C5 (amended): a stop signal that the running loop actually
reaches — here, after a prefix of successful probe cycles — is observed
at the next scheduling event: the loop receives it, terminates, and
performs no probe beyond those of the prefix. (The unrestricted claim is
refuted by `stop_after_self_termination_never_received`.) -/
theorem stop_observed_next_event_while_running (maxRetries : Nat)
    (info : RegistrantInfo) (pre rest : List LoopEvent)
    (h1 : 0 < maxRetries)
    (h2 : ∀ e ∈ pre, ∃ client, e = .tick client ∧
      (sendHeartBeat info client).err = none) :
    (startHealthCheck maxRetries info (pre ++ .quit :: rest)).finished
      = true ∧
    (startHealthCheck maxRetries info (pre ++ .quit :: rest)).quitReceives
      = 1 ∧
    (startHealthCheck maxRetries info (pre ++ .quit :: rest)).probeCount
      = pre.length :=
  startHealthCheckGo_pre_quit maxRetries info pre rest (by omega) h2

/-- Witness for C5: a stop after one successful probe cycle is received
and terminates the loop with exactly that one probe. -/
theorem stop_observed_next_event_while_running_witness :
    (startHealthCheck 3 ⟨"svc-g", "addr-g"⟩
      [.tick okEmptyClient, .quit]).finished = true ∧
    (startHealthCheck 3 ⟨"svc-g", "addr-g"⟩
      [.tick okEmptyClient, .quit]).quitReceives = 1 ∧
    (startHealthCheck 3 ⟨"svc-g", "addr-g"⟩
      [.tick okEmptyClient, .quit]).probeCount = 1 :=
  stop_observed_next_event_while_running 3 ⟨"svc-g", "addr-g"⟩
    [.tick okEmptyClient] [] (by decide)
    (fun e he => ⟨okEmptyClient, by
      rcases List.mem_singleton.mp he with rfl
      exact ⟨rfl, rfl⟩⟩)

/-- Counterexample to C5 as stated: if the loop has already terminated on
its own (first probe cycle failed, early return), a later stop() send on
the unbuffered quit channel is never received, so the call blocks forever
instead of completing. -/
theorem stop_after_self_termination_never_received :
    stopCompletes 3 ⟨"svc-f", "addr-f"⟩ [.tick failingClient, .quit]
      = false := by
  decide

/-- Claim C1 (code bug): with budget 3, one failed probe cycle followed
by a would-be success makes the source loop return immediately after the
single failure — one probe performed, termination report emitted — while
the spec-corrected loop of §4.1 is still running after both events. -/
theorem loop_exits_after_first_failed_cycle :
    (startHealthCheck 3 ⟨"svc-a", "addr-a"⟩
      [.tick failingClient, .tick okOneClient]).finished = true ∧
    (startHealthCheck 3 ⟨"svc-a", "addr-a"⟩
      [.tick failingClient, .tick okOneClient]).probeCount = 1 ∧
    (startHealthCheck 3 ⟨"svc-a", "addr-a"⟩
      [.tick failingClient, .tick okOneClient]).reports
        = [⟨"svc-a", "addr-a"⟩] ∧
    (specHealthCheck 3 ⟨"svc-a", "addr-a"⟩
      [.tick failingClient, .tick okOneClient]).finished = false :=
  ⟨rfl, rfl, rfl, rfl⟩

end HealthChecker
